import Mathlib

/-!
Verification of the filter-expression compiler of `meilisearch-cli`
(`src/api.rs`, `ApiQuery::process_filter`).

The compiler walks the token sequence produced by the pest grammar left to
right, carrying a single `Option` comparator state, and accumulates the
backend filter string.  We embed the token sequence as an inductive type
(the parse tree children, in source order), the chrono date arithmetic as
integer functions over the proleptic Gregorian calendar, and the compile
loop as a structurally recursive function.  A Rust panic (chrono
`NaiveDate::from_ymd` on an invalid calendar date) is embedded as `none`.
-/

namespace MeiliCli

/-- The comparator rules `gt` / `lt` of the grammar (`Rule::gt`, `Rule::lt`). -/
inductive ComparatorKind where
  | gt
  | lt
deriving DecidableEq, Repr

/-- The duration unit rules (`Rule::hour_duration` … `Rule::year_duration`). -/
inductive DurationUnit where
  | hour
  | day
  | week
  | month
  | year
deriving DecidableEq, Repr

/-- The inner rule of a `Rule::date` pair: `year_month_day`, `year_month` or
`year`, carrying the already-parsed numeric captures (`parse::<i32>()` /
`parse::<u32>()` in the source). -/
inductive DateGranularity where
  | year (y : Int)
  | yearMonth (y : Int) (m : Nat)
  | yearMonthDay (y : Int) (m : Nat) (d : Nat)
deriving DecidableEq, Repr

/-- The operator rules `Rule::and` / `Rule::or`. -/
inductive OperatorKind where
  | and
  | or
deriving DecidableEq, Repr

/-- One child pair of the parsed expression, as matched by the
`token.as_rule()` dispatch in `process_filter`.  `notTag` keeps the list of
inner captures that the source concatenates. -/
inductive Token where
  | comparator (k : ComparatorKind)
  | date (g : DateGranularity)
  | duration (amount : Int) (unit : DurationUnit)
  | tag (name : String)
  | notTag (parts : List String)
  | operator (k : OperatorKind)
  | eoi
deriving DecidableEq, Repr

/-- Proleptic Gregorian leap-year rule, as used by chrono `NaiveDate`. -/
def isLeapYear (y : Int) : Bool :=
  y % 4 == 0 && (y % 100 != 0 || y % 400 == 0)

/-- Number of days of month `m` (1–12) of year `y`; `0` for an invalid month
number. -/
def daysInMonth (y : Int) (m : Nat) : Nat :=
  match m with
  | 1 => 31
  | 2 => if isLeapYear y then 29 else 28
  | 3 => 31
  | 4 => 30
  | 5 => 31
  | 6 => 30
  | 7 => 31
  | 8 => 31
  | 9 => 30
  | 10 => 31
  | 11 => 30
  | 12 => 31
  | _ => 0

/-- Days since 1970-01-01 of the proleptic Gregorian date `(y, m, d)`
(Hinnant's `days_from_civil`); this is the day count underlying chrono's
`timestamp()`. -/
def daysFromCivil (y : Int) (m d : Nat) : Int :=
  let yAdj : Int := if m ≤ 2 then y - 1 else y
  let era : Int := Int.fdiv yAdj 400
  let yoe : Int := yAdj - era * 400
  let mp : Nat := if 2 < m then m - 3 else m + 9
  let doy : Int := ((153 * mp + 2) / 5 + d - 1 : Nat)
  let doe : Int := yoe * 365 + Int.fdiv yoe 4 - Int.fdiv yoe 100 + doy
  era * 146097 + doe - 719468

/-- A valid chrono `NaiveDate`: the calendar date `(year, month, day)`. -/
structure CivilDate where
  year : Int
  month : Nat
  day : Nat
deriving DecidableEq, Repr

/-- chrono `NaiveDate::MIN_YEAR` (`i32::MIN >> 13`). -/
def minYear : Int := -262144

/-- chrono `NaiveDate::MAX_YEAR` (`i32::MAX >> 13`). -/
def maxYear : Int := 262143

/-- chrono `NaiveDate::from_ymd`, which panics (here: `none`) on an invalid
month, an invalid day-of-month, or an out-of-range year. -/
def fromYmd (y : Int) (m d : Nat) : Option CivilDate :=
  if minYear ≤ y ∧ y ≤ maxYear ∧ 1 ≤ m ∧ m ≤ 12 ∧ 1 ≤ d ∧ d ≤ daysInMonth y m then
    some ⟨y, m, d⟩
  else
    none

/-- chrono `NaiveDate::pred`: the previous calendar day. -/
def predDate (dt : CivilDate) : CivilDate :=
  if 1 < dt.day then ⟨dt.year, dt.month, dt.day - 1⟩
  else if 1 < dt.month then ⟨dt.year, dt.month - 1, daysInMonth dt.year (dt.month - 1)⟩
  else ⟨dt.year - 1, 12, 31⟩

/-- `DateTime::<Utc>::from_utc(date.and_hms(h, mi, s), Utc).timestamp()`:
UTC epoch seconds of the given calendar date and time of day. -/
def timestampOf (dt : CivilDate) (h mi s : Nat) : Int :=
  daysFromCivil dt.year dt.month dt.day * 86400 + (h * 3600 + mi * 60 + s : Nat)

/-- The `[start, end]` epoch-second instants a `Rule::date` pair resolves to,
following the three granularity branches of `process_filter`; `none` embeds
the `from_ymd` panic on an invalid calendar date. -/
def dateRange : DateGranularity → Option (Int × Int)
  | .yearMonthDay y m d =>
    match fromYmd y m d with
    | none => none
    | some dt => some (timestampOf dt 0 0 0, timestampOf dt 23 59 59)
  | .yearMonth y m =>
    match fromYmd y m 1 with
    | none => none
    | some first =>
      match (if m = 12 then fromYmd (y + 1) 1 1 else fromYmd y (m + 1) 1) with
      | none => none
      | some next => some (timestampOf first 0 0 0, timestampOf (predDate next) 23 59 59)
  | .year y =>
    match fromYmd y 1 1, fromYmd y 12 31 with
    | some s, some e => some (timestampOf s 0 0 0, timestampOf e 23 59 59)
    | _, _ => none

/-- Length in epoch seconds of one duration unit: `Duration::hours(1)` etc.,
with the source's fixed 30-day month and 365-day year. -/
def durationSeconds : DurationUnit → Int
  | .hour => 3600
  | .day => 86400
  | .week => 604800
  | .month => 2592000
  | .year => 31536000

/-- Rust `i64::MIN`. -/
def i64Min : Int := -9223372036854775808

/-- Rust `i64::MAX`: the duration amount is obtained by
`parse::<i64>().unwrap()` on the digit capture, which panics beyond this
bound; the capture is a digit string, so a negative amount never parses
either (a negative `amount` in this model corresponds to no source input
and is mapped to the same panic embedding). -/
def i64Max : Int := 9223372036854775807

/-- Two's-complement wrap into the i64 range, as the release-mode Rust
multiplications `n * 30` / `n * 365` inside the month/year duration
closures behave on overflow. -/
def wrapI64 (x : Int) : Int := (x + 2 ^ 63) % 2 ^ 64 - 2 ^ 63

/-- chrono `Duration::MAX` in whole seconds (`i64::MAX` milliseconds); a
`Duration` of whole seconds is valid iff its seconds lie in
`[-chronoDurationMaxSecs, chronoDurationMaxSecs]` (one second below the
lower end reaches `Duration::MIN`, which has a positive nanosecond part). -/
def chronoDurationMaxSecs : Int := 9223372036854775

/-- A chrono `Duration` of `secs` whole seconds as the
`Duration::hours/days/weeks` constructors build it: a `checked_mul` by the
seconds-per-unit factor (panicking on i64 overflow of the product, the
first guard) followed by the `Duration::seconds` range check against
`Duration::MIN`/`MAX` (the second guard); each panic is embedded as
`none`. -/
def checkedDuration (secs : Int) : Option Int :=
  if secs < i64Min ∨ i64Max < secs then none
  else if secs < -chronoDurationMaxSecs ∨ chronoDurationMaxSecs < secs then none
  else some secs

/-- The signed duration `dur_fn(v)` in seconds: `Duration::hours(n)`,
`Duration::days(n)`, `Duration::weeks(n)`, `Duration::days(n * 30)` and
`Duration::days(n * 365)`, where the month/year closures first scale the
day count with a plain (wrapping) i64 multiplication before the checked
constructor runs. -/
def durFn (amount : Int) : DurationUnit → Option Int
  | .hour => checkedDuration (amount * 3600)
  | .day => checkedDuration (amount * 86400)
  | .week => checkedDuration (amount * 604800)
  | .month => checkedDuration (wrapI64 (amount * 30) * 86400)
  | .year => checkedDuration (wrapI64 (amount * 365) * 86400)

/-- Epoch seconds of chrono's minimal calendar instant (January 1 of year
-262144 at 00:00:00), the lower edge `checked_sub_signed` can reach. -/
def chronoMinTimestamp : Int := timestampOf ⟨minYear, 1, 1⟩ 0 0 0

/-- Epoch seconds of chrono's maximal calendar instant (December 31 of
year 262143 at 23:59:59), the upper edge `checked_sub_signed` can reach. -/
def chronoMaxTimestamp : Int := timestampOf ⟨maxYear, 12, 31⟩ 23 59 59

/-- `Local::now().checked_sub_signed(dur_fn(v)).unwrap().timestamp()` with
`v` the parsed amount: `none` embeds, in source order, the `parse::<i64>`
unwrap panic, the `Duration` constructor panics inside `dur_fn`, and the
`checked_sub_signed` unwrap panic when the resulting instant leaves
chrono's calendar range. -/
def durationThreshold (now amount : Int) (u : DurationUnit) : Option Int :=
  if amount < 0 ∨ i64Max < amount then none
  else
    match durFn amount u with
    | none => none
    | some secs =>
      if now - secs < chronoMinTimestamp ∨ chronoMaxTimestamp < now - secs then none
      else some (now - secs)

/-- The bound text a date pair appends after `"date "`, by pending
comparator: `"> {start} "`, `"< {end} "`, or both bounds joined by an
implicit `AND` when no comparator is pending. -/
def emitWithComparator (pending : Option ComparatorKind) (startTs endTs : Int) : String :=
  match pending with
  | some .gt => "> " ++ toString startTs ++ " "
  | some .lt => "< " ++ toString endTs ++ " "
  | none => "> " ++ toString startTs ++ " AND date < " ++ toString endTs

/-- The bound text a duration pair appends after `"date "`: the single
threshold instant with the pending comparator, defaulting to a lower bound. -/
def emitDuration (pending : Option ComparatorKind) (ts : Int) : String :=
  match pending with
  | some .gt => "> " ++ toString ts ++ " "
  | some .lt => "< " ++ toString ts ++ " "
  | none => "> " ++ toString ts

/-- The token loop of `process_filter`: left-to-right over the expression's
children, threading `curr_comparator` and the filter accumulator.  `now` is
the epoch-second reading of `Local::now()` at evaluation time (the
subtracted durations are whole seconds, leaving the sub-second part
untouched, so only the epoch seconds matter).  `none` embeds a panic: the
`from_ymd` panic on an invalid calendar date, and the duration panics of
`parse::<i64>`, the `Duration` constructors and `checked_sub_signed`. -/
def processTokens (now : Int) : List Token → Option ComparatorKind → String → Option String
  | [], _, acc => some acc
  | t :: rest, pending, acc =>
    match t with
    | .comparator k => processTokens now rest (some k) acc
    | .date g =>
      match dateRange g with
      | none => none
      | some (s, e) => processTokens now rest none (acc ++ "date " ++ emitWithComparator pending s e)
    | .duration amount u =>
      match durationThreshold now amount u with
      | none => none
      | some ts => processTokens now rest none (acc ++ "date " ++ emitDuration pending ts)
    | .tag name => processTokens now rest pending (acc ++ "tag = " ++ name)
    | .notTag parts => processTokens now rest pending (acc ++ "tag != " ++ String.join parts)
    | .operator .and => processTokens now rest pending (acc ++ " AND ")
    | .operator .or => processTokens now rest pending (acc ++ " OR ")
    | .eoi => some acc

/-- The query object of `src/api.rs` (`struct ApiQuery`). -/
structure ApiQuery where
  query : Option String
  filter : Option String
  sort : Option (List String)
  facets_distribution : Option (List String)
  limit : Nat
deriving DecidableEq, Repr

/-- Display width of one character, as `unicode_width` computes it on the
ASCII range (control characters are width 0, printable characters width 1);
the compiler's output is ASCII, so the wide/zero-width classes of non-ASCII
code points never arise here. -/
def charWidth (c : Char) : Nat :=
  if c.toNat < 32 ∨ c.toNat = 127 then 0 else 1

/-- `UnicodeWidthStr::width` of a string: the sum of its characters' widths. -/
def width (s : String) : Nat :=
  (s.data.map charWidth).sum

/-- `ApiQuery::process_filter`.  `parsed` is the result of
`Filter::parse(Rule::expression, input)`: `none` on a grammar mismatch (the
source returns early, leaving `self` untouched), `some tokens` on success.
The compiled string is stored in `self.filter` only when its width is
positive; a compile-time panic is embedded as `none`. -/
def processFilter (now : Int) (q : ApiQuery) (parsed : Option (List Token)) : Option ApiQuery :=
  match parsed with
  | none => some q
  | some tokens =>
    match processTokens now tokens none "" with
    | none => none
    | some f => if 0 < width f then some { q with filter := some f } else some q

/-- Helper predicate for stating the double-space property: whether two
consecutive space characters occur in the list. -/
def hasDoubleSpaceAux : List Char → Bool
  | c1 :: c2 :: rest => (c1 = ' ' && c2 = ' ') || hasDoubleSpaceAux (c2 :: rest)
  | _ => false

/-- Whether a string contains two consecutive space characters. -/
def hasDoubleSpace (s : String) : Bool :=
  hasDoubleSpaceAux s.data

/-- A concrete query object used to instantiate the frame and
silent-failure theorems. -/
def sampleQuery : ApiQuery :=
  { query := some "hello"
    filter := some "tag = old"
    sort := some ["date:desc"]
    facets_distribution := none
    limit := 10000 }

/-- The empty accumulator has display width zero. -/
theorem width_empty : width "" = 0 := rfl

/-- A string of positive display width is not the empty string. -/
theorem ne_empty_of_width_pos {f : String} (h : 0 < width f) : f ≠ "" := by
  intro he
  subst he
  simp [width] at h

/-- Every real month (1–12) has at least one day. -/
theorem daysInMonth_pos (y : Int) (m : Nat) (h1 : 1 ≤ m) (h2 : m ≤ 12) :
    1 ≤ daysInMonth y m := by
  interval_cases m
  all_goals simp only [daysInMonth]
  all_goals try split
  all_goals norm_num

/-- `from_ymd` succeeds exactly on the stated validity conditions. -/
theorem fromYmd_eq_some (y : Int) (m d : Nat)
    (h : minYear ≤ y ∧ y ≤ maxYear ∧ 1 ≤ m ∧ m ≤ 12 ∧ 1 ≤ d ∧ d ≤ daysInMonth y m) :
    fromYmd y m d = some ⟨y, m, d⟩ := by
  simp only [fromYmd]
  exact if_pos h

/-- Wrapping a value already inside the non-negative i64 range is the
identity. -/
theorem wrapI64_eq {x : Int} (h1 : 0 ≤ x) (h2 : x ≤ i64Max) : wrapI64 x = x := by
  have hp : ((2 : Int) ^ 63) = 9223372036854775808 := by norm_num
  have hq : ((2 : Int) ^ 64) = 18446744073709551616 := by norm_num
  have h2' : x ≤ 9223372036854775807 := h2
  unfold wrapI64
  rw [hp, hq, Int.emod_eq_of_lt (by omega) (by omega)]
  omega

/-- A successfully built `Duration` holds exactly the requested seconds. -/
theorem checkedDuration_eq {x y : Int} (h : checkedDuration x = some y) : y = x := by
  unfold checkedDuration at h
  by_cases h1 : x < i64Min ∨ i64Max < x
  · rw [if_pos h1] at h; cases h
  · rw [if_neg h1] at h
    by_cases h2 : x < -chronoDurationMaxSecs ∨ chronoDurationMaxSecs < x
    · rw [if_pos h2] at h; cases h
    · rw [if_neg h2] at h
      injection h with h
      exact h.symm

/-- When the threshold computation succeeds and the amount is small enough
that the month/year day-count multiplications cannot wrap, the threshold is
exactly `now` minus the amount times the unit length. -/
theorem durationThreshold_spec (now amount : Int) (u : DurationUnit) (t : Int)
    (hsmall : amount * 365 ≤ i64Max) (ht : durationThreshold now amount u = some t) :
    t = now - amount * durationSeconds u := by
  unfold durationThreshold at ht
  by_cases hamt : amount < 0 ∨ i64Max < amount
  · rw [if_pos hamt] at ht; cases ht
  · rw [if_neg hamt] at ht
    push_neg at hamt
    obtain ⟨h0, _⟩ := hamt
    cases hdf : durFn amount u with
    | none => rw [hdf] at ht; cases ht
    | some secs =>
      rw [hdf] at ht
      dsimp only at ht
      by_cases hrange : now - secs < chronoMinTimestamp ∨ chronoMaxTimestamp < now - secs
      · rw [if_pos hrange] at ht; cases ht
      · rw [if_neg hrange] at ht
        injection ht with ht
        have hsecs : secs = amount * durationSeconds u := by
          cases u with
          | hour =>
            simp only [durFn] at hdf
            have hx := checkedDuration_eq hdf
            simp only [durationSeconds]
            rw [hx]
          | day =>
            simp only [durFn] at hdf
            have hx := checkedDuration_eq hdf
            simp only [durationSeconds]
            rw [hx]
          | week =>
            simp only [durFn] at hdf
            have hx := checkedDuration_eq hdf
            simp only [durationSeconds]
            rw [hx]
          | month =>
            simp only [durFn] at hdf
            have hw : wrapI64 (amount * 30) = amount * 30 :=
              wrapI64_eq (mul_nonneg h0 (by norm_num))
                (le_trans (mul_le_mul_of_nonneg_left (by norm_num) h0) hsmall)
            rw [hw] at hdf
            have hx := checkedDuration_eq hdf
            simp only [durationSeconds]
            rw [hx]
            ring
          | year =>
            simp only [durFn] at hdf
            have hw : wrapI64 (amount * 365) = amount * 365 :=
              wrapI64_eq (mul_nonneg h0 (by norm_num)) hsmall
            rw [hw] at hdf
            have hx := checkedDuration_eq hdf
            simp only [durationSeconds]
            rw [hx]
            ring
        rw [← ht, hsecs]

/-- Claim C1 counterexample: the compiled output for the single token
`Tag("foo")` is `"tag = foo"` (field spelled `tag`, singular), not
`"tags = foo"` as the claim states. -/
theorem c1_counterexample :
    processTokens 0 [Token.tag "foo", Token.eoi] none "" = some "tag = foo" ∧
    processTokens 0 [Token.tag "foo", Token.eoi] none "" ≠ some "tags = foo" := by
  exact ⟨rfl, by decide⟩

/-- Claim C1 (amended): for every single `Tag(name)` token the compiled
output is exactly `"tag = {name}"`, and for every `NotTag` token the emitted
atom is exactly `"tag != {name}"` with `name` the concatenation of the
negated-tag rule's inner captures; the field spelling is `tag` (singular)
and the operators are `=` and `!=`, emitted exactly. -/
theorem c1_tag_atom_spelling (now : Int) (name : String) (parts : List String) :
    processTokens now [Token.tag name, Token.eoi] none "" = some ("tag = " ++ name) ∧
    processTokens now [Token.notTag parts, Token.eoi] none ""
      = some ("tag != " ++ String.join parts) := by
  exact ⟨rfl, rfl⟩

/-- Claim C2: a grammar mismatch (parse failure) leaves the query's filter
field untouched; a token sequence compiling to the empty string likewise
stores nothing; and a changed filter field can only hold a non-empty
compiled string. -/
theorem c2_silent_failure (now : Int) (q : ApiQuery) (tokens : List Token) :
    processFilter now q none = some q ∧
    (processTokens now tokens none "" = some "" → processFilter now q (some tokens) = some q) ∧
    (∀ r, processFilter now q (some tokens) = some r → r.filter ≠ q.filter →
      ∃ out, processTokens now tokens none "" = some out ∧ out ≠ "" ∧ r.filter = some out) := by
  refine ⟨rfl, ?_, ?_⟩
  · intro h
    simp [processFilter, h, width_empty]
  · intro r h hne
    simp only [processFilter] at h
    cases hp : processTokens now tokens none "" with
    | none => rw [hp] at h; cases h
    | some out =>
      rw [hp] at h
      dsimp only at h
      by_cases hw : 0 < width out
      · rw [if_pos hw] at h
        injection h with h
        refine ⟨out, rfl, ne_empty_of_width_pos hw, ?_⟩
        rw [← h]
      · rw [if_neg hw] at h
        injection h with h
        rw [← h] at hne
        exact absurd rfl hne

/-- Claim C2 witness: with a previously set filter, both a parse failure
and an empty compilation leave the sample query unchanged. -/
theorem c2_silent_failure_witness :
    processFilter 0 sampleQuery none = some sampleQuery ∧
    processFilter 0 sampleQuery (some [Token.eoi]) = some sampleQuery :=
  ⟨(c2_silent_failure 0 sampleQuery [Token.eoi]).1,
   (c2_silent_failure 0 sampleQuery [Token.eoi]).2.1 rfl⟩

/-- Stepping back one day from the first of month `m + 1` lands on the last
calendar day of month `m`. -/
theorem predDate_first_of_next (y : Int) (m : Nat) (h1 : 1 ≤ m) :
    predDate ⟨y, m + 1, 1⟩ = ⟨y, m, daysInMonth y m⟩ := by
  simp only [predDate]
  norm_num
  omega

/-- Stepping back one day from January 1 of year `y + 1` lands on
December 31 of year `y`. -/
theorem predDate_jan_first (y : Int) : predDate ⟨y + 1, 1, 1⟩ = ⟨y, 12, 31⟩ := by
  simp only [predDate]
  norm_num

/-- Claim C3: a Year literal resolves to Jan 1 00:00:00 through
Dec 31 23:59:59 of that year; a YearMonth literal starts at the 1st
00:00:00 and ends at 23:59:59 of the day preceding the first of the next
month (December rolling to January 1 of the next year before stepping
back), which is the month's last calendar day; a YearMonthDay literal
covers that day's 00:00:00 through 23:59:59; and a bare year compiles to
both epoch-second bounds joined by an implicit AND — concretely, `2019`
yields `"date > 1546300800 AND date < 1577836799"`. -/
theorem c3_date_ranges (y : Int) (m d : Nat)
    (hy : minYear ≤ y ∧ y ≤ maxYear) (hm : 1 ≤ m ∧ m ≤ 12)
    (hd : 1 ≤ d ∧ d ≤ daysInMonth y m) :
    dateRange (.year y)
      = some (timestampOf ⟨y, 1, 1⟩ 0 0 0, timestampOf ⟨y, 12, 31⟩ 23 59 59) ∧
    dateRange (.yearMonthDay y m d)
      = some (timestampOf ⟨y, m, d⟩ 0 0 0, timestampOf ⟨y, m, d⟩ 23 59 59) ∧
    (m ≤ 11 →
      dateRange (.yearMonth y m)
        = some (timestampOf ⟨y, m, 1⟩ 0 0 0,
            timestampOf ⟨y, m, daysInMonth y m⟩ 23 59 59)) ∧
    (m = 12 → y + 1 ≤ maxYear →
      dateRange (.yearMonth y m)
        = some (timestampOf ⟨y, 12, 1⟩ 0 0 0,
            timestampOf (predDate ⟨y + 1, 1, 1⟩) 23 59 59) ∧
      predDate ⟨y + 1, 1, 1⟩ = ⟨y, 12, 31⟩) ∧
    processTokens 0 [Token.date (.year 2019), Token.eoi] none ""
      = some "date > 1546300800 AND date < 1577836799" := by
  obtain ⟨hy1, hy2⟩ := hy
  obtain ⟨hm1, hm2⟩ := hm
  refine ⟨?_, ?_, ?_, ?_, by decide⟩
  · simp only [dateRange]
    rw [fromYmd_eq_some y 1 1 ⟨hy1, hy2, by norm_num [daysInMonth]⟩,
      fromYmd_eq_some y 12 31 ⟨hy1, hy2, by norm_num [daysInMonth]⟩]
  · simp only [dateRange]
    rw [fromYmd_eq_some y m d ⟨hy1, hy2, hm1, hm2, hd.1, hd.2⟩]
  · intro hm11
    simp only [dateRange]
    rw [fromYmd_eq_some y m 1 ⟨hy1, hy2, hm1, hm2, le_refl 1, daysInMonth_pos y m hm1 hm2⟩]
    have hne : m ≠ 12 := by omega
    rw [if_neg hne]
    rw [fromYmd_eq_some y (m + 1) 1
      ⟨hy1, hy2, by omega, by omega, le_refl 1, daysInMonth_pos y (m + 1) (by omega) (by omega)⟩]
    dsimp only
    rw [predDate_first_of_next y m hm1]
  · intro hm12 hy3
    subst hm12
    simp only [dateRange, if_pos rfl]
    rw [fromYmd_eq_some y 12 1 ⟨hy1, hy2, by norm_num [daysInMonth]⟩,
      fromYmd_eq_some (y + 1) 1 1 ⟨by omega, hy3, by norm_num [daysInMonth]⟩]
    exact ⟨rfl, predDate_jan_first y⟩

/-- Claim C3 witness: instantiated at year 2019, month 10, day 5; the
October range ends on October 31 at 23:59:59. -/
theorem c3_date_ranges_witness :
    dateRange (DateGranularity.yearMonth 2019 10)
      = some (timestampOf ⟨2019, 10, 1⟩ 0 0 0, timestampOf ⟨2019, 10, 31⟩ 23 59 59) :=
  ((c3_date_ranges 2019 10 5 (by decide) (by decide) (by decide)).2.2.1 (by norm_num)).trans
    (by decide)

/-- Claim C4 counterexample: at the reachable duration `400000y` (six typed
digits), `checked_sub_signed` leaves chrono's calendar range and its unwrap
panics, so the pending `>` comparator is never consumed and nothing is
emitted — the compilation aborts instead. -/
theorem c4_counterexample :
    processTokens 1700000000
      [Token.comparator ComparatorKind.gt, Token.duration 400000 DurationUnit.year,
        Token.eoi] none "" = none := by decide

/-- Claim C4 (amended): a comparator token emits nothing and only sets the
pending state; the next date or duration token consumes it, provided that
token compiles without panicking (the date resolves, the duration threshold
computation stays within chrono's ranges) — greater-than takes the range's
start instant (for a duration, the threshold) with `>`, less-than the end
instant (threshold) with `<`, no pending comparator gives both bounds
joined by an implicit AND for a date and only the lower bound for a
duration — and the pending comparator is reset to `None` right after that
token (the continuation runs with state `none` in every case); at a
panicking amount the compilation aborts and the comparator is never
consumed. -/
theorem c4_comparator_consumption (now : Int) (k : ComparatorKind) (g : DateGranularity)
    (s e : Int) (hg : dateRange g = some (s, e)) (amount : Int) (u : DurationUnit)
    (t : Int) (ht : durationThreshold now amount u = some t)
    (rest : List Token) (pending : Option ComparatorKind) (acc : String) :
    processTokens now (Token.comparator k :: rest) pending acc
      = processTokens now rest (some k) acc ∧
    processTokens now (Token.date g :: rest) (some .gt) acc
      = processTokens now rest none (acc ++ "date " ++ ("> " ++ toString s ++ " ")) ∧
    processTokens now (Token.date g :: rest) (some .lt) acc
      = processTokens now rest none (acc ++ "date " ++ ("< " ++ toString e ++ " ")) ∧
    processTokens now (Token.date g :: rest) none acc
      = processTokens now rest none
          (acc ++ "date " ++ ("> " ++ toString s ++ " AND date < " ++ toString e)) ∧
    processTokens now (Token.duration amount u :: rest) (some .gt) acc
      = processTokens now rest none (acc ++ "date " ++ ("> " ++ toString t ++ " ")) ∧
    processTokens now (Token.duration amount u :: rest) (some .lt) acc
      = processTokens now rest none (acc ++ "date " ++ ("< " ++ toString t ++ " ")) ∧
    processTokens now (Token.duration amount u :: rest) none acc
      = processTokens now rest none (acc ++ "date " ++ ("> " ++ toString t)) := by
  refine ⟨rfl, ?_, ?_, ?_, ?_, ?_, ?_⟩ <;>
    simp only [processTokens, hg, ht, emitWithComparator, emitDuration]

/-- Claim C4 witness: a pending `>` before the year literal 2019 is consumed
into the lower bound and the state continues as `none`; the duration
hypothesis is instantiated at the in-range one-day duration. -/
theorem c4_comparator_consumption_witness :
    processTokens 0 [Token.date (DateGranularity.year 2019), Token.eoi]
        (some ComparatorKind.gt) ""
      = processTokens 0 [Token.eoi] none
          ("" ++ "date " ++ ("> " ++ toString (1546300800 : Int) ++ " ")) :=
  (c4_comparator_consumption 0 ComparatorKind.gt (DateGranularity.year 2019)
      1546300800 1577836799 (by decide) 1 DurationUnit.day (-86400) (by decide)
      [Token.eoi] none "").2.1

/-- Claim C5 counterexample: at the reachable six-digit duration `300000y`,
`now - 300000 * 365 * 86400` lies before chrono's minimal calendar instant,
so `checked_sub_signed` returns `None`, its unwrap panics, and no threshold
is emitted — refuting the universal threshold-emission claim. -/
theorem c5_counterexample :
    durationThreshold 1700000000 300000 DurationUnit.year = none ∧
    processTokens 1700000000 [Token.duration 300000 DurationUnit.year, Token.eoi] none ""
      = none := by
  exact ⟨by decide, by decide⟩

/-- Claim C5 (amended): the duration unit lengths are hour = 3600 s,
day = 86400 s, week = 7 days, month = exactly 30 days, year = exactly
365 days (no calendar arithmetic); for every duration token whose
threshold computation succeeds (the amount parses as i64, the day-count
multiplication cannot wrap, and `now - amount * unit` stays within
chrono's `Duration` and calendar ranges), the threshold is exactly `now`
minus `amount` times the unit length, and with no pending comparator only
the lower bound `"date > {threshold}"` is emitted — concretely `7d` at
epoch 1700000000 yields `1700000000 - 7 * 86400`; outside those ranges the
compiler panics and emits nothing. -/
theorem c5_duration_threshold (now amount : Int) (u : DurationUnit) (t : Int)
    (hsmall : amount * 365 ≤ i64Max) (ht : durationThreshold now amount u = some t)
    (rest : List Token) (acc : String) :
    durationSeconds .hour = 3600 ∧
    durationSeconds .day = 86400 ∧
    durationSeconds .week = 7 * 86400 ∧
    durationSeconds .month = 30 * 86400 ∧
    durationSeconds .year = 365 * 86400 ∧
    t = now - amount * durationSeconds u ∧
    processTokens now (Token.duration amount u :: rest) none acc
      = processTokens now rest none (acc ++ "date " ++ ("> " ++ toString t)) ∧
    processTokens 1700000000 [Token.duration 7 .day, Token.eoi] none ""
      = some ("date > " ++ toString (1700000000 - 7 * 86400 : Int)) := by
  refine ⟨rfl, rfl, by norm_num [durationSeconds], by norm_num [durationSeconds],
    by norm_num [durationSeconds], durationThreshold_spec now amount u t hsmall ht,
    ?_, by decide⟩
  simp only [processTokens, ht, emitDuration]

/-- Claim C5 witness: at the in-range duration `7d` and epoch 1700000000
the threshold equals `now` minus seven days. -/
theorem c5_duration_threshold_witness :
    (1699395200 : Int) = 1700000000 - 7 * durationSeconds DurationUnit.day :=
  (c5_duration_threshold 1700000000 7 DurationUnit.day 1699395200 (by decide) (by decide)
    [Token.eoi] "").2.2.2.2.2.1

/-- Claim C6: a second comparator before any date/duration overwrites the
first (last-one-wins): the compilation of `comparator a, comparator b, …`
agrees with that of `comparator b, …` on any accumulator and pending state,
and a comparator step only replaces the state, emitting nothing. -/
theorem c6_last_comparator_wins (now : Int) (a b : ComparatorKind) (rest : List Token)
    (pending : Option ComparatorKind) (acc : String) :
    processTokens now (Token.comparator a :: Token.comparator b :: rest) pending acc
      = processTokens now (Token.comparator b :: rest) pending acc ∧
    processTokens now (Token.comparator a :: Token.comparator b :: rest) pending acc
      = processTokens now rest (some b) acc := by
  exact ⟨rfl, rfl⟩

/-- Claim C7 counterexample: on the invalid calendar date 2019-02-31 the
compiler does not embed a diagnostic and continue — the whole compilation
aborts (the chrono `from_ymd` panic, embedded as `none`), so no filter
string at all is produced and the following tag token is never compiled. -/
theorem c7_counterexample :
    processTokens 0 [Token.date (DateGranularity.yearMonthDay 2019 2 31),
        Token.tag "x", Token.eoi] none "" = none ∧
    processFilter 0 sampleQuery
        (some [Token.date (DateGranularity.yearMonthDay 2019 2 31),
          Token.tag "x", Token.eoi]) = none := by
  exact ⟨by decide, by decide⟩

/-- Claim C7 (amended): a grammatically well-formed date term that does not
denote a valid calendar date makes the compilation panic and abort: no
output is produced, the remaining tokens are not compiled, and no filter
string (diagnostic or otherwise) is returned. -/
theorem c7_invalid_date_aborts (now : Int) (y : Int) (m d : Nat) (rest : List Token)
    (pending : Option ComparatorKind) (acc : String) (h : fromYmd y m d = none) :
    processTokens now (Token.date (.yearMonthDay y m d) :: rest) pending acc = none := by
  simp only [processTokens, dateRange, h]

/-- Claim C7 witness: the amended behavior at the concrete invalid date
2019-02-31. -/
theorem c7_invalid_date_aborts_witness :
    processTokens 0 [Token.date (DateGranularity.yearMonthDay 2019 2 31),
        Token.tag "x", Token.eoi] (some ComparatorKind.gt) "prefix " = none :=
  c7_invalid_date_aborts 0 2019 2 31 [Token.tag "x", Token.eoi]
    (some ComparatorKind.gt) "prefix " (by decide)

/-- Claim C8: compilation stops as soon as the `EOI` token is reached, even
if tokens follow it; a comparator immediately followed by `EOI` does not
crash — the pending comparator is discarded, the output is empty, and the
query's previously set filter is left untouched. -/
theorem c8_eoi_stops (now : Int) (k : ComparatorKind) (rest : List Token)
    (pending : Option ComparatorKind) (acc : String) :
    processTokens now (Token.eoi :: rest) pending acc = some acc ∧
    processTokens now [Token.comparator k, Token.eoi] pending "" = some "" ∧
    processFilter now sampleQuery (some [Token.comparator k, Token.eoi])
      = some sampleQuery := by
  exact ⟨rfl, rfl, rfl⟩

/-- Claim C9: whenever `process_filter` returns, it has modified at most the
`filter` field — the `query`, `sort`, `facets_distribution` and `limit`
fields hold exactly their previous values, whether parsing succeeded or
failed. -/
theorem c9_frame_effect (now : Int) (q : ApiQuery) (parsed : Option (List Token))
    (r : ApiQuery) (h : processFilter now q parsed = some r) :
    r.query = q.query ∧ r.sort = q.sort ∧
    r.facets_distribution = q.facets_distribution ∧ r.limit = q.limit := by
  cases parsed with
  | none =>
    injection h with h
    rw [← h]
    exact ⟨rfl, rfl, rfl, rfl⟩
  | some tokens =>
    simp only [processFilter] at h
    cases hp : processTokens now tokens none "" with
    | none => rw [hp] at h; cases h
    | some f =>
      rw [hp] at h
      dsimp only at h
      by_cases hw : 0 < width f
      · rw [if_pos hw] at h
        injection h with h
        rw [← h]
        exact ⟨rfl, rfl, rfl, rfl⟩
      · rw [if_neg hw] at h
        injection h with h
        rw [← h]
        exact ⟨rfl, rfl, rfl, rfl⟩

/-- Claim C9 witness: processing a tag filter over the sample query changes
only its filter field. -/
theorem c9_frame_effect_witness :
    ({ sampleQuery with filter := some "tag = foo" } : ApiQuery).query = sampleQuery.query ∧
    ({ sampleQuery with filter := some "tag = foo" } : ApiQuery).sort = sampleQuery.sort ∧
    ({ sampleQuery with filter := some "tag = foo" } : ApiQuery).facets_distribution
      = sampleQuery.facets_distribution ∧
    ({ sampleQuery with filter := some "tag = foo" } : ApiQuery).limit = sampleQuery.limit :=
  c9_frame_effect 0 sampleQuery (some [Token.tag "foo", Token.eoi])
    { sampleQuery with filter := some "tag = foo" } (by decide)

/-- Claim C10: the comparator-qualified bound atoms carry a trailing space
(`"> {epoch} "` / `"< {epoch} "`), for dates and durations alike, while the
no-comparator forms end without one; hence a comparator-qualified term
immediately followed by an operator token produces two consecutive spaces
around the separator — concretely `> 2019 AND x` compiles to
`"date > 1546300800  AND tag = x"`, which contains a double space, while
the comparator-free compilation of `2019` contains none. -/
theorem c10_trailing_space (now : Int) (g : DateGranularity) (s e : Int)
    (hg : dateRange g = some (s, e)) (amount : Int) (u : DurationUnit)
    (rest : List Token) (acc : String) :
    processTokens now (Token.date g :: rest) (some .gt) acc
      = processTokens now rest none (acc ++ "date " ++ (("> " ++ toString s) ++ " ")) ∧
    processTokens now (Token.date g :: rest) (some .lt) acc
      = processTokens now rest none (acc ++ "date " ++ (("< " ++ toString e) ++ " ")) ∧
    emitWithComparator (some .gt) s e = ("> " ++ toString s) ++ " " ∧
    emitWithComparator (some .lt) s e = ("< " ++ toString e) ++ " " ∧
    emitDuration (some .gt) (now - amount * durationSeconds u)
      = ("> " ++ toString (now - amount * durationSeconds u)) ++ " " ∧
    emitDuration (some .lt) (now - amount * durationSeconds u)
      = ("< " ++ toString (now - amount * durationSeconds u)) ++ " " ∧
    emitWithComparator none s e
      = ("> " ++ toString s ++ " AND date < ") ++ toString e ∧
    emitDuration none (now - amount * durationSeconds u)
      = "> " ++ toString (now - amount * durationSeconds u) ∧
    processTokens now [Token.comparator .gt, Token.date (.year 2019),
        Token.operator .and, Token.tag "x", Token.eoi] none ""
      = some "date > 1546300800  AND tag = x" ∧
    ("date > 1546300800  AND tag = x"
      = "date " ++ ("> 1546300800" ++ " ") ++ " AND " ++ "tag = x") ∧
    hasDoubleSpace "date > 1546300800  AND tag = x" = true ∧
    (processTokens now [Token.date (.year 2019), Token.eoi] none ""
      = some "date > 1546300800 AND date < 1577836799") ∧
    hasDoubleSpace "date > 1546300800 AND date < 1577836799" = false := by
  refine ⟨?_, ?_, rfl, rfl, rfl, rfl, rfl, rfl, rfl, by decide, by decide, rfl, by decide⟩ <;>
    simp only [processTokens, hg, emitWithComparator]

/-- Claim C10 witness: instantiated at the 2019 year literal and a one-day
duration. -/
theorem c10_trailing_space_witness :
    processTokens 0 [Token.date (DateGranularity.year 2019), Token.eoi]
        (some ComparatorKind.gt) ""
      = processTokens 0 [Token.eoi] none
          ("" ++ "date " ++ (("> " ++ toString (1546300800 : Int)) ++ " ")) :=
  (c10_trailing_space 0 (DateGranularity.year 2019) 1546300800 1577836799 (by decide)
    1 DurationUnit.day [Token.eoi] "").1

end MeiliCli
